import Mathlib

/-!
Shallow embedding of the FinMan transaction controllers
(src/backend/Routers/Transactions.js) and the data model they act on.

Request-body fields carry JavaScript values; we model the value space
needed by the controllers (undefined/null/boolean/number/string) together
with JavaScript truthiness.  JavaScript numbers are modelled as integers
(no claim depends on fractional values); a date supplied in a request is
an epoch-style integer timestamp, so the external moment library's
parse/validity check accepts exactly numeric values in this model.
Identifiers (Mongo ObjectIds) are strings; an absent identifier is the
empty string, which is exactly the falsy case of a JavaScript string.
-/

namespace FinMan

/-- A JavaScript value as it can appear in a request body field. -/
inductive JVal where
  | undef
  | jnull
  | jbool (b : Bool)
  | jnum (n : Int)
  | jstr (s : String)
deriving DecidableEq, Repr

/-- JavaScript String.prototype.trim, modelled over the character
list: whitespace stripped from both ends. -/
def jsTrim (s : String) : String :=
  ⟨((s.data.dropWhile Char.isWhitespace).reverse.dropWhile
      Char.isWhitespace).reverse⟩

/-- JavaScript truthiness of a request value. -/
def JVal.truthy : JVal → Bool
  | .undef => false
  | .jnull => false
  | .jbool b => b
  | .jnum n => n != 0
  | .jstr s => s != ""

/-- JavaScript Number(v) coercion; none stands for NaN.  String coercion
is modelled on integer numerals (a blank string coerces to 0, a numeral
string to its value, anything else to NaN). -/
def JVal.toNumber : JVal → Option Int
  | .undef => none
  | .jnull => some 0
  | .jbool b => some (if b then 1 else 0)
  | .jnum n => some n
  | .jstr s => if jsTrim s = "" then some 0 else (jsTrim s).toInt?

/-- Coercion of a stored value to the schema String type. -/
def JVal.asStr : JVal → String
  | .jstr s => s
  | .jnum n => toString n
  | .jbool b => toString b
  | .undef => ""
  | .jnull => ""

/-- Coercion of a stored value to the schema Number type. -/
def JVal.asNum : JVal → Int
  | .jnum n => n
  | _ => 0

/-- The timestamp moment(v) denotes; request dates are numeric in this
model, so only the numeric case is meaningful. -/
def JVal.toMoment : JVal → Int
  | .jnum n => n
  | _ => 0

/-- moment(v).isValid(): a numeric timestamp is always a valid moment. -/
def momentValid : JVal → Bool
  | .jnum _ => true
  | _ => false

/-- Modelled from the spec: TransactionModel.js is not under src; the
fields and their types follow the DATA MODEL section (title, amount,
category, optional description, date, transactionType, owner) plus the
identifier, with the owner reference named user as the controllers use
it. -/
structure Transaction where
  _id : String
  title : String
  amount : Int
  category : String
  description : String
  date : Int
  user : String
  transactionType : String
deriving DecidableEq, Repr

/-- Modelled from the spec: UserSchema.js is not under src; a User
carries its identifier and the ordered collection of transaction
references (by identifier), as the DATA MODEL section describes. -/
structure User where
  _id : String
  transactions : List String
deriving DecidableEq, Repr

/-- The two document stores the controllers act on. -/
structure DB where
  transactions : List Transaction
  users : List User
deriving DecidableEq, Repr

/-- User.findById over the user store. -/
def DB.findUser (db : DB) (id : String) : Option User :=
  db.users.find? (fun u => u._id == id)

/-- Persist an updated user document (user.save()). -/
def DB.saveUser (db : DB) (u : User) : DB :=
  { db with users := db.users.map (fun v => if v._id == u._id then u else v) }

/-- An HTTP-style JSON response: status code, success flag, message. -/
structure Response where
  status : Nat
  success : Bool
  message : String
deriving DecidableEq, Repr

/-! ## addTransactionController -/

/-- The request body of addTransaction. -/
structure AddReq where
  title : JVal
  amount : JVal
  description : JVal
  date : JVal
  category : JVal
  userId : String
  transactionType : JVal
deriving DecidableEq, Repr

/-- Check 1: title is a string with non-blank trim (a falsy or
non-string title fails the same check). -/
def titleOk : JVal → Bool
  | .jstr s => jsTrim s != ""
  | _ => false

/-- Check 2: amount is a strictly positive number. -/
def amountOk : JVal → Bool
  | .jnum n => decide (0 < n)
  | _ => false

/-- Check 3: date is truthy and a valid moment. -/
def dateOk (v : JVal) : Bool := v.truthy && momentValid v

/-- Check 4: category is a string with non-blank trim. -/
def categoryOk : JVal → Bool
  | .jstr s => jsTrim s != ""
  | _ => false

/-- Check 5: transactionType is the string credit or the string
expense (any other value, falsy included, fails). -/
def typeOk (v : JVal) : Bool :=
  v == .jstr "credit" || v == .jstr "expense"

/-- addTransactionController.  freshId is the identifier the store
assigns to the created record. -/
def addTransactionController (req : AddReq) (freshId : String) (db : DB) :
    Response × DB :=
  if ¬ titleOk req.title then
    (⟨400, false, "Title must be a non-empty string"⟩, db)
  else if ¬ amountOk req.amount then
    (⟨400, false, "Amount must be a positive number"⟩, db)
  else if ¬ dateOk req.date then
    (⟨400, false, "Please provide a valid date"⟩, db)
  else if ¬ categoryOk req.category then
    (⟨400, false, "Category must be a non-empty string"⟩, db)
  else if ¬ typeOk req.transactionType then
    (⟨400, false, "Transaction type must be either credit or expense"⟩, db)
  else if req.userId = "" then
    (⟨400, false, "User ID is required"⟩, db)
  else
    match db.findUser req.userId with
    | none => (⟨400, false, "User not found"⟩, db)
    | some user =>
      let newTransaction : Transaction :=
        { _id := freshId
          title := req.title.asStr
          amount := req.amount.asNum
          category := req.category.asStr
          description := req.description.asStr
          date := req.date.toMoment
          user := req.userId
          transactionType := req.transactionType.asStr }
      let db1 : DB := { db with transactions := db.transactions ++ [newTransaction] }
      let db2 := db1.saveUser { user with transactions := user.transactions ++ [freshId] }
      (⟨200, true, "Transaction Added Successfully"⟩, db2)

/-! ## getAllTransactionController -/

/-- The request body of getTransaction. -/
structure GetAllReq where
  userId : String
  type : String
  frequency : JVal
  startDate : JVal
  endDate : JVal
deriving DecidableEq, Repr

/-- Length of a day in the timestamp unit (milliseconds). -/
def msPerDay : Int := 86400000

/-- moment start of day. -/
def startOfDay (t : Int) : Int := (Int.fdiv t msPerDay) * msPerDay

/-- moment end of day (23:59:59.999). -/
def endOfDay (t : Int) : Int := startOfDay t + msPerDay - 1

/-- The days subtracted on the non-custom branch:
Number(frequency) with fallback 7 on a falsy coercion (0 or NaN). -/
def frequencyDays (frequency : JVal) : Int :=
  match frequency.toNumber with
  | some n => if n = 0 then 7 else n
  | none => 7

/-- A date constraint of the Mongo query built by the controller. -/
inductive DateCond where
  | between (lo hi : Int)
  | after (lo : Int)
deriving DecidableEq, Repr

/-- The Mongo query object built by getAllTransactionController. -/
structure TxQuery where
  user : String
  transactionType : Option String
  date : Option DateCond
deriving DecidableEq, Repr

/-- Query construction of getAllTransactionController. -/
def buildQuery (req : GetAllReq) (now : Int) : TxQuery :=
  let q0 : TxQuery := { user := req.userId, transactionType := none, date := none }
  let q1 := if req.type ≠ "all" then { q0 with transactionType := some req.type } else q0
  if req.frequency = JVal.jstr "custom" ∧ req.startDate.truthy ∧ req.endDate.truthy then
    { q1 with date := some (DateCond.between (startOfDay req.startDate.toMoment)
        (endOfDay req.endDate.toMoment)) }
  else if req.frequency ≠ JVal.jstr "custom" then
    { q1 with date := some (DateCond.after
        (startOfDay (now - frequencyDays req.frequency * msPerDay))) }
  else q1

/-- Whether a stored transaction matches the query. -/
def Transaction.matches (t : Transaction) (q : TxQuery) : Bool :=
  t.user == q.user &&
  (match q.transactionType with
   | none => true
   | some ty => t.transactionType == ty) &&
  (match q.date with
   | none => true
   | some (DateCond.between lo hi) => decide (lo ≤ t.date) && decide (t.date ≤ hi)
   | some (DateCond.after lo) => decide (lo < t.date))

/-- The result of getAllTransactionController. -/
inductive GetAllResult where
  | err (status : Nat) (message : String)
  | ok (transactions : List Transaction)
deriving DecidableEq, Repr

/-- getAllTransactionController; now is the current timestamp. -/
def getAllTransactionController (req : GetAllReq) (now : Int) (db : DB) :
    GetAllResult :=
  if req.userId = "" then .err 400 "User ID is required"
  else
    match db.findUser req.userId with
    | none => .err 400 "User not found"
    | some _ =>
      .ok ((db.transactions.filter
              (fun t => t.matches (buildQuery req now))).mergeSort
            (fun a b => b.date ≤ a.date))

/-! ## deleteMultipleTransactionsController -/

/-- deleteMultipleTransactionsController. -/
def deleteMultipleTransactionsController (transactionIds : List String)
    (userId : String) (db : DB) : Response × DB :=
  if transactionIds.isEmpty then
    (⟨400, false, "Please provide valid transaction IDs"⟩, db)
  else
    match db.findUser userId with
    | none => (⟨400, false, "User not found"⟩, db)
    | some user =>
      let deletedCount :=
        (db.transactions.filter
          (fun t => transactionIds.contains t._id && t.user == userId)).length
      let remaining :=
        db.transactions.filter
          (fun t => !(transactionIds.contains t._id && t.user == userId))
      let db1 : DB := { db with transactions := remaining }
      if deletedCount = 0 then
        (⟨404, false, "No transactions found to delete"⟩, db1)
      else
        let keptRefs :=
          user.transactions.filter (fun tid => !transactionIds.contains tid)
        let user1 := { user with transactions := keptRefs }
        (⟨200, true,
           "Successfully deleted " ++ toString deletedCount ++ " transactions"⟩,
         db1.saveUser user1)

/-! ## getSingleTransactionController -/

/-- The result of getSingleTransactionController. -/
inductive GetOneResult where
  | err (status : Nat) (message : String)
  | ok (t : Transaction)
deriving DecidableEq, Repr

/-- getSingleTransactionController. -/
def getSingleTransactionController (id : String) (userId : String) (db : DB) :
    GetOneResult :=
  if id = "" ∨ userId = "" then
    .err 400 "Transaction ID and User ID are required"
  else
    match db.transactions.find? (fun t => t._id == id && t.user == userId) with
    | none => .err 404 "Transaction not found"
    | some t => .ok t

/-! ## deleteTransactionController -/

/-- deleteTransactionController.  The reference-collection update is the
source's filter keeping exactly the elements equal to the deleted
identifier. -/
def deleteTransactionController (transactionId : String) (userId : String)
    (db : DB) : Response × DB :=
  match db.findUser userId with
  | none => (⟨400, false, "User not found"⟩, db)
  | some user =>
    match db.transactions.find? (fun t => t._id == transactionId) with
    | none => (⟨400, false, "transaction not found"⟩, db)
    | some _ =>
      let remaining := db.transactions.filter (fun t => !(t._id == transactionId))
      let db1 : DB := { db with transactions := remaining }
      let transactionArr :=
        user.transactions.filter (fun tid => tid == transactionId)
      (⟨200, true, "Transaction successfully deleted"⟩,
       db1.saveUser { user with transactions := transactionArr })

/-! ## updateTransactionController -/

/-- The request body of updateTransaction. -/
structure UpdateReq where
  title : JVal
  amount : JVal
  description : JVal
  date : JVal
  category : JVal
  transactionType : JVal
deriving DecidableEq, Repr

/-- The field-by-field truthiness-guarded overwrite of
updateTransactionController, in source order. -/
def applyUpdate (req : UpdateReq) (t : Transaction) : Transaction :=
  let t1 := if req.title.truthy then { t with title := req.title.asStr } else t
  let t2 := if req.description.truthy then { t1 with description := req.description.asStr } else t1
  let t3 := if req.amount.truthy then { t2 with amount := req.amount.asNum } else t2
  let t4 := if req.category.truthy then { t3 with category := req.category.asStr } else t3
  let t5 := if req.transactionType.truthy then { t4 with transactionType := req.transactionType.asStr } else t4
  if req.date.truthy then { t5 with date := req.date.toMoment } else t5

/-- The result of updateTransactionController. -/
inductive UpdateResult where
  | err (status : Nat) (message : String)
  | ok (t : Transaction)
deriving DecidableEq, Repr

/-- updateTransactionController (takes no userId: the route supplies
only the transaction identifier and the field values). -/
def updateTransactionController (transactionId : String) (req : UpdateReq)
    (db : DB) : UpdateResult × DB :=
  match db.transactions.find? (fun t => t._id == transactionId) with
  | none => (.err 400 "transaction not found", db)
  | some t =>
    let t1 := applyUpdate req t
    let stored := db.transactions.map (fun u => if u._id == transactionId then t1 else u)
    (.ok t1, { db with transactions := stored })

/-! ## Concrete fixtures for witnesses and counterexamples -/

/-- A sample stored transaction owned by user u. -/
def T1 : Transaction :=
  { _id := "t1", title := "Lunch", amount := 10, category := "food"
    description := "", date := 5 * msPerDay, user := "u"
    transactionType := "expense" }

/-- A second stored transaction owned by user u. -/
def T2 : Transaction :=
  { _id := "t2", title := "Salary", amount := 900, category := "job"
    description := "", date := 8 * msPerDay, user := "u"
    transactionType := "credit" }

/-- A transaction owned by a different user v. -/
def T3 : Transaction :=
  { _id := "t3", title := "Rent", amount := 300, category := "home"
    description := "", date := 6 * msPerDay, user := "v"
    transactionType := "expense" }

/-- User u owning t1 and t2. -/
def uA : User := { _id := "u", transactions := ["t1", "t2"] }

/-- User v owning t3. -/
def uB : User := { _id := "v", transactions := ["t3"] }

/-- A store holding both users and their three transactions. -/
def dbEx : DB := { transactions := [T1, T2, T3], users := [uA, uB] }

/-! ## Claims -/

/-- C1.  The spec says deleteOne removes the deleted identifier from the
owner's reference collection and preserves every other reference.  The
source filter keeps exactly the elements EQUAL to the deleted identifier
(the negation is missing, compare the correct bulk-delete filter), so on
a user owning t1 and t2, deleting t1 leaves the reference collection
["t1"] — the deleted identifier is kept and the sibling reference t2 is
dropped.  This theorem evaluates the embedded controller at that failing
input. -/
theorem c1_deleteOne_reference_bug :
    (deleteTransactionController "t1" "u" dbEx).1 =
      ⟨200, true, "Transaction successfully deleted"⟩ ∧
    ((deleteTransactionController "t1" "u" dbEx).2.findUser "u").map
        User.transactions = some ["t1"] ∧
    ((deleteTransactionController "t1" "u" dbEx).2.findUser "u").map
        User.transactions ≠ some ["t2"] := by
  decide

/-- C5.  A create request whose amount is -5 — and in general any
request whose amount fails the positivity/number check — is rejected
with a 400 validation response and leaves both stores unchanged. -/
theorem c5_nonpositive_amount_rejected (req : AddReq) (freshId : String)
    (db : DB) (h : req.amount = JVal.jnum (-5) ∨ amountOk req.amount = false) :
    (addTransactionController req freshId db).1.status = 400 ∧
    (addTransactionController req freshId db).1.success = false ∧
    (addTransactionController req freshId db).2 = db := by
  have hamt : amountOk req.amount = false := by
    rcases h with h | h
    · rw [h]; decide
    · exact h
  by_cases ht : titleOk req.title
  · simp [addTransactionController, ht, hamt]
  · simp [addTransactionController, ht]

/-- Witness for C5 at a concrete request with amount -5 against the
sample store. -/
theorem c5_nonpositive_amount_rejected_witness :
    (addTransactionController
        { title := .jstr "Lunch", amount := .jnum (-5), description := .undef
          date := .jnum 1, category := .jstr "food", userId := "u"
          transactionType := .jstr "expense" } "t9" dbEx).2 = dbEx :=
  (c5_nonpositive_amount_rejected
    { title := .jstr "Lunch", amount := .jnum (-5), description := .undef
      date := .jnum 1, category := .jstr "food", userId := "u"
      transactionType := .jstr "expense" } "t9" dbEx (Or.inl rfl)).2.2

/-- C6.  getOne fails with the same 404 response whenever no transaction
has both the requested identifier and the requested owner; in
particular a store where the identifier belongs to a different user is
indistinguishable from a store where the identifier does not occur at
all. -/
theorem c6_getOne_not_found_indistinguishable (id userId : String)
    (db1 db2 : DB) (hid : id ≠ "") (huid : userId ≠ "")
    (h1 : ∀ t ∈ db1.transactions, ¬ (t._id = id ∧ t.user = userId))
    (h2 : ∀ t ∈ db2.transactions, ¬ (t._id = id ∧ t.user = userId)) :
    getSingleTransactionController id userId db1 =
      GetOneResult.err 404 "Transaction not found" ∧
    getSingleTransactionController id userId db1 =
      getSingleTransactionController id userId db2 := by
  have f1 : db1.transactions.find? (fun t => t._id == id && t.user == userId) = none := by
    rw [List.find?_eq_none]
    intro t ht
    simpa using h1 t ht
  have f2 : db2.transactions.find? (fun t => t._id == id && t.user == userId) = none := by
    rw [List.find?_eq_none]
    intro t ht
    simpa using h2 t ht
  constructor
  · simp [getSingleTransactionController, hid, huid, f1]
  · simp [getSingleTransactionController, hid, huid, f1, f2]

/-- Witness for C6: t3 exists in the sample store but belongs to user v,
and an empty store has no transaction at all; requesting t3 as user u
yields the same 404 in both. -/
theorem c6_getOne_not_found_indistinguishable_witness :
    getSingleTransactionController "t3" "u" dbEx =
      GetOneResult.err 404 "Transaction not found" ∧
    getSingleTransactionController "t3" "u" dbEx =
      getSingleTransactionController "t3" "u" { transactions := [], users := [] } :=
  c6_getOne_not_found_indistinguishable "t3" "u" dbEx
    { transactions := [], users := [] } (by decide) (by decide)
    (by decide) (by decide)

/-- C9.  updateTransactionController takes no owner parameter and does
no ownership check: whenever a transaction with the requested identifier
exists — whoever its owner is, the hypothesis places no constraint on
the owner field — the update is applied and succeeds, and the user store
is untouched. -/
theorem c9_update_no_ownership_check (transactionId : String)
    (req : UpdateReq) (db : DB) (t : Transaction)
    (h : db.transactions.find? (fun u => u._id == transactionId) = some t) :
    (updateTransactionController transactionId req db).1 =
      UpdateResult.ok (applyUpdate req t) ∧
    (updateTransactionController transactionId req db).2.users = db.users := by
  constructor
  · simp [updateTransactionController, h]
  · simp [updateTransactionController, h]

/-- Witness for C9: user u updates transaction t3 owned by user v, and
the update succeeds. -/
theorem c9_update_no_ownership_check_witness :
    (updateTransactionController "t3"
        { title := .undef, amount := .jnum 50, description := .undef
          date := .undef, category := .undef, transactionType := .undef }
        dbEx).1 =
      UpdateResult.ok (applyUpdate
        { title := .undef, amount := .jnum 50, description := .undef
          date := .undef, category := .undef, transactionType := .undef } T3) :=
  (c9_update_no_ownership_check "t3"
    { title := .undef, amount := .jnum 50, description := .undef
      date := .undef, category := .undef, transactionType := .undef }
    dbEx T3 (by decide)).1

/-- C4.  When the requested transaction exists, update stores exactly
the field-by-field overwrite: each of the six fields takes the supplied
value when that value is truthy and keeps its prior value otherwise,
and the identifier and owner are never touched. -/
theorem c4_update_truthy_frame (transactionId : String) (req : UpdateReq)
    (db : DB) (t : Transaction)
    (h : db.transactions.find? (fun u => u._id == transactionId) = some t) :
    (updateTransactionController transactionId req db).1 =
      UpdateResult.ok (applyUpdate req t) ∧
    (applyUpdate req t).title =
      (if req.title.truthy then req.title.asStr else t.title) ∧
    (applyUpdate req t).description =
      (if req.description.truthy then req.description.asStr else t.description) ∧
    (applyUpdate req t).amount =
      (if req.amount.truthy then req.amount.asNum else t.amount) ∧
    (applyUpdate req t).category =
      (if req.category.truthy then req.category.asStr else t.category) ∧
    (applyUpdate req t).transactionType =
      (if req.transactionType.truthy then req.transactionType.asStr
       else t.transactionType) ∧
    (applyUpdate req t).date =
      (if req.date.truthy then req.date.toMoment else t.date) ∧
    (applyUpdate req t)._id = t._id ∧
    (applyUpdate req t).user = t.user := by
  refine ⟨by simp [updateTransactionController, h], ?_⟩
  unfold applyUpdate
  split_ifs <;> simp_all

/-- Witness for C4: updating t1 with only an amount of 50 sets the
amount to 50 and leaves every other field of t1 unchanged. -/
theorem c4_update_truthy_frame_witness :
    (updateTransactionController "t1"
        { title := .undef, amount := .jnum 50, description := .undef
          date := .undef, category := .undef, transactionType := .undef }
        dbEx).1 =
      UpdateResult.ok { T1 with amount := 50 } := by
  have h := (c4_update_truthy_frame "t1"
    { title := .undef, amount := .jnum 50, description := .undef
      date := .undef, category := .undef, transactionType := .undef }
    dbEx T1 (by decide)).1
  rw [h]
  decide

/-- C8.  The six create-validation checks run in the source order
title, amount, date, category, transactionType, userId; the first
failing check alone determines the response, each failure carries a
distinct message, and every failure leaves the store untouched. -/
theorem c8_create_validation_order (req : AddReq) (freshId : String) (db : DB) :
    (titleOk req.title = false →
      addTransactionController req freshId db =
        (⟨400, false, "Title must be a non-empty string"⟩, db)) ∧
    (titleOk req.title = true → amountOk req.amount = false →
      addTransactionController req freshId db =
        (⟨400, false, "Amount must be a positive number"⟩, db)) ∧
    (titleOk req.title = true → amountOk req.amount = true →
      dateOk req.date = false →
      addTransactionController req freshId db =
        (⟨400, false, "Please provide a valid date"⟩, db)) ∧
    (titleOk req.title = true → amountOk req.amount = true →
      dateOk req.date = true → categoryOk req.category = false →
      addTransactionController req freshId db =
        (⟨400, false, "Category must be a non-empty string"⟩, db)) ∧
    (titleOk req.title = true → amountOk req.amount = true →
      dateOk req.date = true → categoryOk req.category = true →
      typeOk req.transactionType = false →
      addTransactionController req freshId db =
        (⟨400, false, "Transaction type must be either credit or expense"⟩, db)) ∧
    (titleOk req.title = true → amountOk req.amount = true →
      dateOk req.date = true → categoryOk req.category = true →
      typeOk req.transactionType = true → req.userId = "" →
      addTransactionController req freshId db =
        (⟨400, false, "User ID is required"⟩, db)) ∧
    List.Pairwise (fun a b => a ≠ b)
      ["Title must be a non-empty string", "Amount must be a positive number",
       "Please provide a valid date", "Category must be a non-empty string",
       "Transaction type must be either credit or expense",
       "User ID is required"] := by
  refine ⟨?_, ?_, ?_, ?_, ?_, ?_, by decide⟩ <;>
    intros <;> simp [addTransactionController, *]

/-- Witness for C8: a request failing only the transactionType check is
rejected with the transactionType message and the store is unchanged. -/
theorem c8_create_validation_order_witness :
    addTransactionController
        { title := .jstr "Lunch", amount := .jnum 10, description := .undef
          date := .jnum 1, category := .jstr "food", userId := "u"
          transactionType := .jstr "loan" } "t9" dbEx =
      (⟨400, false, "Transaction type must be either credit or expense"⟩, dbEx) :=
  (c8_create_validation_order
    { title := .jstr "Lunch", amount := .jnum 10, description := .undef
      date := .jnum 1, category := .jstr "food", userId := "u"
      transactionType := .jstr "loan" } "t9" dbEx).2.2.2.2.1
    (by decide) (by decide) (by decide) (by decide) (by decide)

/-- C2.  With a non-empty identifier list and an existing user, bulk
delete removes from the transaction store exactly the transactions
whose identifier is listed AND whose owner is the requesting user —
transactions of other owners survive even when listed; the success
message reports the number of such transactions, and the operation
fails with 404 when that number is zero. -/
theorem c2_deleteMany_owner_scoped (transactionIds : List String)
    (userId : String) (db : DB) (user : User)
    (hne : transactionIds ≠ [])
    (hu : db.findUser userId = some user) :
    (∀ t, t ∈ (deleteMultipleTransactionsController transactionIds userId db).2.transactions ↔
        t ∈ db.transactions ∧ ¬ (t._id ∈ transactionIds ∧ t.user = userId)) ∧
    ((db.transactions.filter
        (fun t => transactionIds.contains t._id && t.user == userId)).length ≠ 0 →
      (deleteMultipleTransactionsController transactionIds userId db).1 =
        ⟨200, true, "Successfully deleted " ++
          toString (db.transactions.filter
            (fun t => transactionIds.contains t._id && t.user == userId)).length ++
          " transactions"⟩) ∧
    ((db.transactions.filter
        (fun t => transactionIds.contains t._id && t.user == userId)).length = 0 →
      (deleteMultipleTransactionsController transactionIds userId db).1 =
        ⟨404, false, "No transactions found to delete"⟩) := by
  have hne' : transactionIds.isEmpty = false := by
    simpa [List.isEmpty_iff] using hne
  have hrun : deleteMultipleTransactionsController transactionIds userId db =
      (if (db.transactions.filter
            (fun t => transactionIds.contains t._id && t.user == userId)).length = 0 then
        (⟨404, false, "No transactions found to delete"⟩,
         { db with transactions := db.transactions.filter (fun t => !(transactionIds.contains t._id && t.user == userId)) })
      else
        (⟨200, true, "Successfully deleted " ++
            toString (db.transactions.filter
              (fun t => transactionIds.contains t._id && t.user == userId)).length ++
            " transactions"⟩,
         DB.saveUser
           { db with transactions := db.transactions.filter (fun t => !(transactionIds.contains t._id && t.user == userId)) }
           { user with transactions := user.transactions.filter (fun tid => !transactionIds.contains tid) })) := by
    unfold deleteMultipleTransactionsController
    rw [hu]
    simp only [hne', Bool.false_eq_true, if_false]
  refine ⟨?_, ?_, ?_⟩
  · intro t
    rw [hrun]
    by_cases hz :
        (db.transactions.filter
          (fun t => transactionIds.contains t._id && t.user == userId)).length = 0
    · rw [if_pos hz]
      simp only [List.mem_filter]
      constructor <;> rintro ⟨ht, hb⟩ <;> refine ⟨ht, ?_⟩ <;>
        simp at hb ⊢ <;> tauto
    · rw [if_neg hz]
      simp only [DB.saveUser, List.mem_filter]
      constructor <;> rintro ⟨ht, hb⟩ <;> refine ⟨ht, ?_⟩ <;>
        simp at hb ⊢ <;> tauto
  · intro hz
    rw [hrun, if_neg hz]
  · intro hz
    rw [hrun, if_pos hz]

/-- Witness for C2 on the sample store: requesting the ids t2
(owned by u) and t3 (owned by v) as user u deletes only t2, reports
one deletion, and leaves t3 in the store. -/
theorem c2_deleteMany_owner_scoped_witness :
    (T3 ∈ (deleteMultipleTransactionsController ["t2", "t3"] "u" dbEx).2.transactions ↔
      T3 ∈ dbEx.transactions ∧ ¬ (T3._id ∈ ["t2", "t3"] ∧ T3.user = "u")) ∧
    (deleteMultipleTransactionsController ["t2", "t3"] "u" dbEx).1 =
      ⟨200, true, "Successfully deleted " ++
        toString (dbEx.transactions.filter
          (fun t => ["t2", "t3"].contains t._id && t.user == "u")).length ++
        " transactions"⟩ :=
  ⟨(c2_deleteMany_owner_scoped ["t2", "t3"] "u" dbEx uA (by decide) (by decide)).1 T3,
   (c2_deleteMany_owner_scoped ["t2", "t3"] "u" dbEx uA (by decide) (by decide)).2.1
     (by decide)⟩

/-- Helper: on a present userId resolving to a user, the list operation
succeeds and its result holds exactly the stored transactions matching
the built query (the descending-date sort permutes, so membership is
preserved). -/
theorem getAll_ok_mem (req : GetAllReq) (now : Int) (db : DB) (user : User)
    (hu : req.userId ≠ "") (hfind : db.findUser req.userId = some user) :
    ∃ l, getAllTransactionController req now db = GetAllResult.ok l ∧
      ∀ t, t ∈ l ↔ t ∈ db.transactions ∧
        t.matches (buildQuery req now) = true := by
  refine ⟨(db.transactions.filter
      (fun t => t.matches (buildQuery req now))).mergeSort
        (fun a b => b.date ≤ a.date), ?_, ?_⟩
  · simp [getAllTransactionController, hu, hfind]
  · intro t
    rw [List.mem_mergeSort, List.mem_filter]

/-- C7.  With the custom sentinel and both dates supplied, the listed
transactions are exactly the requested owner's transactions that match
the type filter and whose date lies in the inclusive window from the
start of the startDate day to the end of the endDate day. -/
theorem c7_custom_inclusive_window (req : GetAllReq) (now : Int) (db : DB)
    (user : User) (hu : req.userId ≠ "")
    (hf : req.frequency = JVal.jstr "custom")
    (hs : req.startDate.truthy = true) (he : req.endDate.truthy = true)
    (hfind : db.findUser req.userId = some user) :
    ∃ l, getAllTransactionController req now db = GetAllResult.ok l ∧
      ∀ t, t ∈ l ↔ t ∈ db.transactions ∧ t.user = req.userId ∧
        (req.type = "all" ∨ t.transactionType = req.type) ∧
        (startOfDay req.startDate.toMoment ≤ t.date ∧
         t.date ≤ endOfDay req.endDate.toMoment) := by
  obtain ⟨l, hl, hmem⟩ := getAll_ok_mem req now db user hu hfind
  refine ⟨l, hl, fun t => ?_⟩
  rw [hmem t]
  by_cases ht : req.type = "all" <;>
    simp [buildQuery, Transaction.matches, hf, hs, he, ht, and_assoc]

/-- Witness for C7 on the sample store: a custom window covering days
5 through 8 lists exactly the two transactions of user u, whose dates
fall in the window. -/
theorem c7_custom_inclusive_window_witness :
    ∃ l, getAllTransactionController
        { userId := "u", type := "all", frequency := JVal.jstr "custom"
          startDate := JVal.jnum (5 * msPerDay)
          endDate := JVal.jnum (8 * msPerDay) } 0 dbEx = GetAllResult.ok l ∧
      ∀ t, t ∈ l ↔ t ∈ dbEx.transactions ∧ t.user = "u" ∧
        ("all" = "all" ∨ t.transactionType = "all") ∧
        (startOfDay (JVal.jnum (5 * msPerDay)).toMoment ≤ t.date ∧
         t.date ≤ endOfDay (JVal.jnum (8 * msPerDay)).toMoment) :=
  c7_custom_inclusive_window
    { userId := "u", type := "all", frequency := JVal.jstr "custom"
      startDate := JVal.jnum (5 * msPerDay), endDate := JVal.jnum (8 * msPerDay) }
    0 dbEx uA (by decide) rfl (by decide) (by decide) (by decide)

/-- C10.  With the custom sentinel but a missing (falsy) startDate or
endDate, the list operation still succeeds and applies no date
constraint at all: it returns the owner's type-matching transactions
from all time. -/
theorem c10_custom_missing_date_no_constraint (req : GetAllReq) (now : Int)
    (db : DB) (user : User) (hu : req.userId ≠ "")
    (hf : req.frequency = JVal.jstr "custom")
    (hmiss : req.startDate.truthy = false ∨ req.endDate.truthy = false)
    (hfind : db.findUser req.userId = some user) :
    ∃ l, getAllTransactionController req now db = GetAllResult.ok l ∧
      ∀ t, t ∈ l ↔ t ∈ db.transactions ∧ t.user = req.userId ∧
        (req.type = "all" ∨ t.transactionType = req.type) := by
  obtain ⟨l, hl, hmem⟩ := getAll_ok_mem req now db user hu hfind
  refine ⟨l, hl, fun t => ?_⟩
  rw [hmem t]
  rcases hmiss with hm | hm <;> by_cases ht : req.type = "all" <;>
    simp [buildQuery, Transaction.matches, hf, hm, ht, and_assoc]

/-- Witness for C10: a custom request with both dates absent lists the
two transactions of user u with no date restriction. -/
theorem c10_custom_missing_date_no_constraint_witness :
    ∃ l, getAllTransactionController
        { userId := "u", type := "all", frequency := JVal.jstr "custom"
          startDate := JVal.undef, endDate := JVal.undef } 0 dbEx =
          GetAllResult.ok l ∧
      ∀ t, t ∈ l ↔ t ∈ dbEx.transactions ∧ t.user = "u" ∧
        ("all" = "all" ∨ t.transactionType = "all") :=
  c10_custom_missing_date_no_constraint
    { userId := "u", type := "all", frequency := JVal.jstr "custom"
      startDate := JVal.undef, endDate := JVal.undef }
    0 dbEx uA (by decide) rfl (Or.inl rfl) (by decide)

/-- C3 counterexample.  The claim asserts that a valid non-negative
integer frequency — zero included — gives a window of exactly that many
days.  With frequency 0 the source computes the fallback
Number(frequency) fallback-or 7, and 0 is falsy, so the window is 7
days: at now = day 10, transaction T1 dated day 5 is listed although
the claimed 0-day window (date after the start of day 10) excludes
it. -/
theorem c3_frequency_zero_counterexample :
    getAllTransactionController
        { userId := "u", type := "all", frequency := JVal.jnum 0
          startDate := JVal.undef, endDate := JVal.undef }
        (10 * msPerDay) dbEx = GetAllResult.ok [T2, T1] ∧
    T1 ∈ [T2, T1] ∧
    ¬ (startOfDay (10 * msPerDay - 0 * msPerDay) < T1.date) := by
  refine ⟨?_, by decide, by decide⟩
  simp [getAllTransactionController, DB.findUser, dbEx, uA, uB, T1, T2, T3,
    buildQuery, frequencyDays, JVal.toNumber, JVal.truthy, Transaction.matches,
    startOfDay, msPerDay, List.filter, List.mergeSort]

/-- C3 amended.  When frequency is not the custom sentinel, the listed
transactions are exactly the owner's type-matching transactions dated
strictly after startOfDay(now − d days), where d = Number(frequency)
whenever that coercion is a nonzero number, and d = 7 whenever the
coercion is 0 or not a number — so frequency 0 yields the 7-day
default rather than a 0-day window. -/
theorem c3_default_window_amended (req : GetAllReq) (now : Int) (db : DB)
    (user : User) (hu : req.userId ≠ "")
    (hf : req.frequency ≠ JVal.jstr "custom")
    (hfind : db.findUser req.userId = some user) :
    (∃ l, getAllTransactionController req now db = GetAllResult.ok l ∧
      ∀ t, t ∈ l ↔ t ∈ db.transactions ∧ t.user = req.userId ∧
        (req.type = "all" ∨ t.transactionType = req.type) ∧
        startOfDay (now - frequencyDays req.frequency * msPerDay) < t.date) ∧
    (∀ n : Int, req.frequency.toNumber = some n → n ≠ 0 →
      frequencyDays req.frequency = n) ∧
    ((req.frequency.toNumber = none ∨ req.frequency.toNumber = some 0) →
      frequencyDays req.frequency = 7) := by
  refine ⟨?_, ?_, ?_⟩
  · obtain ⟨l, hl, hmem⟩ := getAll_ok_mem req now db user hu hfind
    refine ⟨l, hl, fun t => ?_⟩
    rw [hmem t]
    by_cases ht : req.type = "all" <;>
      simp [buildQuery, Transaction.matches, hf, ht, and_assoc]
  · intro n hn hn0
    simp [frequencyDays, hn, hn0]
  · intro hn
    rcases hn with hn | hn <;> simp [frequencyDays, hn]

/-- Witness for the amended C3: at now = day 10 with frequency 3, the
cutoff is the start of day 7, so only T2 (day 8) is listed, and the
days subtracted for the nonzero coercion 3 are exactly 3. -/
theorem c3_default_window_amended_witness :
    (∃ l, getAllTransactionController
        { userId := "u", type := "all", frequency := JVal.jnum 3
          startDate := JVal.undef, endDate := JVal.undef }
        (10 * msPerDay) dbEx = GetAllResult.ok l ∧
      ∀ t, t ∈ l ↔ t ∈ dbEx.transactions ∧ t.user = "u" ∧
        ("all" = "all" ∨ t.transactionType = "all") ∧
        startOfDay (10 * msPerDay - frequencyDays (JVal.jnum 3) * msPerDay)
          < t.date) ∧
    (∀ n : Int, (JVal.jnum 3).toNumber = some n → n ≠ 0 →
      frequencyDays (JVal.jnum 3) = n) ∧
    (((JVal.jnum 3).toNumber = none ∨ (JVal.jnum 3).toNumber = some 0) →
      frequencyDays (JVal.jnum 3) = 7) :=
  c3_default_window_amended
    { userId := "u", type := "all", frequency := JVal.jnum 3
      startDate := JVal.undef, endDate := JVal.undef }
    (10 * msPerDay) dbEx uA (by decide) (by decide) (by decide)

end FinMan
